import Mathlib

/-!
Verification development for the storage-brain SDK client.

The definitions below are a shallow embedding of the SDK source:
`src/constants.ts`, `src/errors.ts` and `src/client.ts` (the `StorageBrain`
class).  JSON numeric fields are modelled as `Nat`, JavaScript
`undefined`/optional values as `Option`, thrown exceptions as `Except`
errors, and the class hierarchy of `errors.ts` as one inductive type
(`JsError`) whose constructors carry each class's own fields.  Network
I/O, wall-clock time and the progress/abort event wiring are modelled by
explicit environments supplying, for each network attempt or poll
iteration, the outcome the outside world would produce.
-/

namespace StorageBrainSdk

/-! ## constants.ts -/

/-- `ALLOWED_MIME_TYPES = Object.keys(ALLOWED_FILE_TYPES)` from `constants.ts`. -/
def ALLOWED_MIME_TYPES : List String :=
  ["image/jpeg", "image/png", "image/webp", "image/gif", "image/avif",
   "application/pdf"]

/-- `PROCESSING_CONTEXTS` from `constants.ts`. -/
def PROCESSING_CONTEXTS : List String :=
  ["newsletter", "invoice", "framer-site", "default"]

/-- `MAX_FILE_SIZE_BYTES = 100 * 1024 * 1024` from `constants.ts`. -/
def MAX_FILE_SIZE_BYTES : Nat := 100 * 1024 * 1024

/-- `RETRY_CONFIG` from `constants.ts`. -/
structure RetryConfig where
  maxAttempts : Nat
  initialDelayMs : Nat
  maxDelayMs : Nat
  backoffMultiplier : Nat
deriving Repr, DecidableEq

def RETRY_CONFIG : RetryConfig :=
  { maxAttempts := 3, initialDelayMs := 1000, maxDelayMs := 10000
    backoffMultiplier := 2 }

/-- `PROCESSING_STATUSES` from `constants.ts`, as an enumeration. -/
inductive ProcessingStatus where
  | pending
  | processing
  | completed
  | failed
deriving Repr, DecidableEq, BEq

/-! ## errors.ts : the error-class hierarchy

Each subclass of `StorageBrainError` becomes one constructor carrying the
fields that subclass's constructor stores.  A thrown value that is *not* a
`StorageBrainError` (e.g. a `TypeError` from `fetch`) is the `plain`
constructor.  `originalError` fields (on `NetworkError` / `UploadError`)
hold another thrown value, hence the recursion. -/

/-- A `{path, message}` entry of `ValidationError.errors`. -/
structure PathMessage where
  path : String
  message : String
deriving Repr, DecidableEq

/-- The fields of an error body's `details` object that `errors.ts` reads
(`Record<string, unknown>` restricted to the keys the code accesses). -/
structure ErrorDetails where
  quotaBytes : Option Nat := none
  usedBytes : Option Nat := none
  fileType : Option String := none
  allowedTypes : Option (List String) := none
  fileSize : Option Nat := none
  maxSize : Option Nat := none
  fileId : Option String := none
  errors : Option (List PathMessage) := none
deriving Repr, DecidableEq

/-- A thrown JavaScript error value.  `generic` is the base class
`StorageBrainError` used directly; `plain` is any non-`StorageBrainError`
`Error` (identified only by its message). -/
inductive JsError where
  | generic (message : String) (code : String) (statusCode : Option Nat)
      (details : Option ErrorDetails)
  | authentication (message : String)
  | quotaExceeded (message : String) (quotaBytes usedBytes : Option Nat)
  | invalidFileType (fileType : Option String)
      (allowedTypes : Option (List String))
  | fileTooLarge (fileSize maxSize : Option Nat)
  | fileNotFound (fileId : String)
  | network (message : String) (originalError : Option JsError)
  | upload (message : String) (originalError : Option JsError)
  | validation (message : String) (errors : Option (List PathMessage))
  | plain (message : String)
deriving Repr

/-- The spec's closed error taxonomy (§7), used to state which *kind* an
error value belongs to. -/
inductive ErrorKind where
  | generic
  | authentication
  | quotaExceeded
  | invalidFileType
  | fileTooLarge
  | fileNotFound
  | network
  | upload
  | validation
deriving Repr, DecidableEq

/-- Kind of a thrown value; `none` for a non-`StorageBrainError`. -/
def JsError.kind : JsError → Option ErrorKind
  | .generic .. => some .generic
  | .authentication _ => some .authentication
  | .quotaExceeded .. => some .quotaExceeded
  | .invalidFileType .. => some .invalidFileType
  | .fileTooLarge .. => some .fileTooLarge
  | .fileNotFound _ => some .fileNotFound
  | .network .. => some .network
  | .upload .. => some .upload
  | .validation .. => some .validation
  | .plain _ => none

/-- The `code` field each `errors.ts` class passes to `super(...)`;
`none` for a non-`StorageBrainError`. -/
def JsError.code : JsError → Option String
  | .generic _ c _ _ => some c
  | .authentication _ => some "AUTHENTICATION_ERROR"
  | .quotaExceeded .. => some "QUOTA_EXCEEDED"
  | .invalidFileType .. => some "INVALID_FILE_TYPE"
  | .fileTooLarge .. => some "FILE_TOO_LARGE"
  | .fileNotFound _ => some "FILE_NOT_FOUND"
  | .network .. => some "NETWORK_ERROR"
  | .upload .. => some "UPLOAD_ERROR"
  | .validation .. => some "VALIDATION_ERROR"
  | .plain _ => none

/-- The `statusCode` each `errors.ts` class passes to `super(...)`:
401 / 403 / 400 / 400 / 404 / 400 are hard-coded in the subclass
constructors; `NetworkError` and `UploadError` pass `undefined`. -/
def JsError.statusCode : JsError → Option Nat
  | .generic _ _ sc _ => sc
  | .authentication _ => some 401
  | .quotaExceeded .. => some 403
  | .invalidFileType .. => some 400
  | .fileTooLarge .. => some 400
  | .fileNotFound _ => some 404
  | .network .. => none
  | .upload .. => none
  | .validation .. => some 400
  | .plain _ => none

/-! ## errors.ts : parseApiError -/

/-- The `error` object of an API error body
`{ code?, message?, details? }`. -/
structure ApiErrorBody where
  code : Option String := none
  message : Option String := none
  details : Option ErrorDetails := none
deriving Repr, DecidableEq

/-- An API error response `{ error? : {...} }`. -/
structure ApiErrorResponse where
  error : Option ApiErrorBody := none
deriving Repr, DecidableEq

/-- `parseApiError(statusCode, response)` from `errors.ts`: dispatch on
`response.error?.code`, building the matching error class; unrecognized
or absent codes fall through to the base class carrying the response
status. -/
def parseApiError (statusCode : Nat) (response : ApiErrorResponse) :
    JsError :=
  let body := response.error.getD {}
  let message := body.message
  let details := body.details
  match body.code with
  | some "UNAUTHORIZED" =>
      .authentication (message.getD "Authentication failed")
  | some "QUOTA_EXCEEDED" =>
      .quotaExceeded (message.getD "Storage quota exceeded")
        (details.bind ErrorDetails.quotaBytes)
        (details.bind ErrorDetails.usedBytes)
  | some "INVALID_FILE_TYPE" =>
      .invalidFileType (details.bind ErrorDetails.fileType)
        (details.bind ErrorDetails.allowedTypes)
  | some "FILE_TOO_LARGE" =>
      .fileTooLarge (details.bind ErrorDetails.fileSize)
        (details.bind ErrorDetails.maxSize)
  | some "FILE_NOT_FOUND" =>
      .fileNotFound ((details.bind ErrorDetails.fileId).getD "unknown")
  | some "NOT_FOUND" =>
      .fileNotFound ((details.bind ErrorDetails.fileId).getD "unknown")
  | some "VALIDATION_ERROR" =>
      .validation (message.getD "Validation failed")
        (details.bind ErrorDetails.errors)
  | some other =>
      .generic (message.getD "An error occurred") other
        (some statusCode) details
  | none =>
      .generic (message.getD "An error occurred") "UNKNOWN_ERROR"
        (some statusCode) details

/-! ## types.ts

Structures returned by the API.  JSON numbers are modelled as `Nat`
(the client never does arithmetic on them), `T | null` and optional
fields as `Option`, and `Record<string, string>` as an association
list. -/

structure BoundingBox where
  x : Nat
  y : Nat
  width : Nat
  height : Nat
deriving Repr, DecidableEq

structure OcrBlock where
  text : String
  confidence : Nat
  boundingBox : BoundingBox
deriving Repr, DecidableEq

structure OcrResult where
  fullText : String
  confidence : Nat
  blocks : List OcrBlock
deriving Repr, DecidableEq

structure ImageInfo where
  width : Nat
  height : Nat
  format : String
  colorSpace : Option String := none
  hasAlpha : Option Bool := none
deriving Repr, DecidableEq

structure ThumbnailUrls where
  thumb : Option String := none
  medium : Option String := none
  large : Option String := none
deriving Repr, DecidableEq

structure FileMetadata where
  thumbnailUrls : Option ThumbnailUrls := none
  ocrData : Option OcrResult := none
  imageInfo : Option ImageInfo := none
  processingError : Option String := none
deriving Repr, DecidableEq

/-- `FileInfo` from `types.ts`. -/
structure FileInfo where
  id : String
  url : String
  originalName : String
  fileType : String
  sizeBytes : Nat
  context : String
  tags : Option (List (String × String)) := none
  metadata : Option FileMetadata := none
  processingStatus : ProcessingStatus
  createdAt : String
deriving Repr, DecidableEq

/-- `UploadHandshake.uploadMetadata` from `types.ts`. -/
structure UploadMetadata where
  maxSizeBytes : Nat
  allowedTypes : List String
deriving Repr, DecidableEq

/-- `UploadHandshake` from `types.ts`. -/
structure UploadHandshake where
  fileId : String
  presignedUrl : String
  expiresAt : String
  uploadMetadata : UploadMetadata
deriving Repr, DecidableEq

/-! ## client.ts : waitForProcessing

The loop `while (Date.now() - startTime < maxWaitMs)` is modelled by
tracking the elapsed milliseconds explicitly.  The outside world is a
`PollEnv`: the record the n-th `getFile` call returns, how many
milliseconds that call takes, and the elapsed time (if any) at which the
caller's `AbortSignal` becomes aborted.  The result carries, besides the
returned record, the elapsed time at which each `getFile` call was
issued (so fetch counts and timing are statable). -/

structure PollEnv where
  /-- Record returned by the n-th `getFile` call (0-indexed). -/
  fetch : Nat → FileInfo
  /-- Milliseconds the n-th `getFile` call takes. -/
  fetchDuration : Nat → Nat
  /-- Elapsed time at which the abort signal fires, if ever. -/
  abortedAt : Option Nat := none

/-- `signal?.aborted` at elapsed time `t`. -/
def PollEnv.isAborted (env : PollEnv) (t : Nat) : Bool :=
  match env.abortedAt with
  | some a => a ≤ t
  | none => false

/-- `file.processingStatus === 'completed' || file.processingStatus ===
'failed'`. -/
def isTerminalStatus (s : ProcessingStatus) : Bool :=
  s == .completed || s == .failed

/-- The body of `waitForProcessing`: while the elapsed time is below
`maxWaitMs`, check the abort signal (raising `UploadError('Operation was
cancelled')`), fetch the record, return it if terminal, else sleep
`pollIntervalMs` and loop; once the deadline has passed, perform one
final fetch and return its record unconditionally.

The recursion is driven by a fuel counter so that the definition is
structural (and hence computable in the kernel).  `waitForProcessing`
passes `maxWaitMs + 1` fuel, which is never exhausted when the poll
interval is positive (each iteration advances the elapsed time by at
least `pollIntervalMs`); `pollLoop_fuel_congr` below proves the result
is then independent of the fuel, so the counter is a pure modelling
device and not part of the embedded behaviour. -/
def pollLoop (env : PollEnv) (maxWaitMs pollIntervalMs : Nat) :
    (fuel elapsed fetchIdx : Nat) → Except JsError (FileInfo × List Nat)
  | 0, elapsed, fetchIdx => .ok (env.fetch fetchIdx, [elapsed])
  | fuel + 1, elapsed, fetchIdx =>
    if elapsed < maxWaitMs then
      if env.isAborted elapsed then
        .error (.upload "Operation was cancelled" none)
      else
        if isTerminalStatus (env.fetch fetchIdx).processingStatus then
          .ok (env.fetch fetchIdx, [elapsed])
        else
          match pollLoop env maxWaitMs pollIntervalMs fuel
              (elapsed + env.fetchDuration fetchIdx + pollIntervalMs)
              (fetchIdx + 1) with
          | .error e => .error e
          | .ok (r, ts) => .ok (r, elapsed :: ts)
    else
      .ok (env.fetch fetchIdx, [elapsed])

/-- `waitForProcessing(fileId, signal, maxWaitMs = 60000, pollIntervalMs
= 1000)` from `client.ts`, starting with zero elapsed time and no fetch
issued yet. -/
def waitForProcessing (env : PollEnv) (maxWaitMs pollIntervalMs : Nat) :
    Except JsError (FileInfo × List Nat) :=
  pollLoop env maxWaitMs pollIntervalMs (maxWaitMs + 1) 0 0

/-! ## client.ts : uploadToPresignedUrl

The XHR transfer.  Its terminal event is supplied by the environment:
either the `load` event with a status, or the `error` event; if the
caller's abort signal fires while the transfer is in flight, the
registered listener calls `xhr.abort()` and the `abort` event wins. -/

/-- `presignedUrl.startsWith('/')`: whether the destination is
service-relative.  (Stated on the character list so it evaluates by
`decide`.) -/
def startsWithSlash (s : String) : Bool :=
  match s.data with
  | [] => false
  | c :: _ => c == '/'

/-- Terminal XHR event for a transfer that is not aborted. -/
inductive XhrOutcome where
  | completed (status : Nat)
  | transportError
deriving Repr, DecidableEq

/-- Message of the `UploadError` raised on a non-2xx transfer status
(the template literal `Upload failed with status ${xhr.status}`). -/
def uploadFailedMsg (status : Nat) : String :=
  "Upload failed with status " ++ toString status

/-- What one call of `uploadToPresignedUrl` does: the resolved
destination URL, the `Authorization` header attached to the PUT (if
any), and the outcome. -/
structure TransferRun where
  url : String
  authHeader : Option String
  result : Except JsError Unit
deriving Repr

/-- `uploadToPresignedUrl(presignedUrl, file, contentType, onProgress,
signal)` from `client.ts`.  A service-relative URL is resolved against
`baseUrl` and gets a bearer header; an absolute URL is used as-is with
no auth header.  `signalAbortsInFlight` says whether the abort signal
fires before the transfer reaches a terminal state (in which case the
`abort` listener rejects with `UploadError('Upload was cancelled')`);
otherwise the `load`/`error` event decides the result. -/
def uploadToPresignedUrl (baseUrl apiKey presignedUrl : String)
    (signalAbortsInFlight : Bool) (outcome : XhrOutcome) : TransferRun :=
  { url :=
      if startsWithSlash presignedUrl then baseUrl ++ presignedUrl
      else presignedUrl
    authHeader :=
      if startsWithSlash presignedUrl then
        some ("Bearer " ++ apiKey)
      else none
    result :=
      if signalAbortsInFlight then
        .error (.upload "Upload was cancelled" none)
      else
        match outcome with
        | .completed status =>
            if 200 ≤ status ∧ status < 300 then .ok ()
            else .error (.upload (uploadFailedMsg status) none)
        | .transportError =>
            .error (.network "Network error during upload" none) }

/-! ## client.ts : request (the retry loop)

`for (let attempt = 0; attempt < this.maxRetries; attempt++) { ... }`.
Each attempt's outcome is supplied by the environment: a parsed success
body, a non-ok HTTP response (whose body is fed to `parseApiError`), or
a thrown non-`StorageBrainError` exception (network failure, timeout
abort, JSON parse failure).  The result additionally carries the number
of attempts actually issued. -/

inductive AttemptOutcome (α : Type) where
  | ok (v : α)
  | httpError (status : Nat) (body : ApiErrorResponse)
  | thrown (message : String)

structure RequestEnv (α : Type) where
  attempt : Nat → AttemptOutcome α

/-- The retry guard `error instanceof StorageBrainError &&
error.statusCode && error.statusCode < 500`: a candidate failure is
terminal when it is a classified error whose status code is truthy and
below 500.  (`plain` errors are not `StorageBrainError`, and their
modelled `statusCode` is `none`, so the two checks coincide.) -/
def isTerminalFailure (e : JsError) : Bool :=
  match e.statusCode with
  | some s => s != 0 && s < 500
  | none => false

/-- The error a failed attempt contributes as `lastError`. -/
def failureOf {α : Type} : AttemptOutcome α → Option JsError
  | .ok _ => none
  | .httpError status body => some (parseApiError status body)
  | .thrown msg => some (.plain msg)

/-- A failure the retry loop does not treat as terminal. -/
def isRetryableFailure {α : Type} : AttemptOutcome α → Bool
  | .ok _ => false
  | .httpError status body => !isTerminalFailure (parseApiError status body)
  | .thrown _ => true

/-- The retry loop of `request`: `for (attempt = 0; attempt <
maxRetries; attempt++)`, written structurally on the countdown
`remaining = maxRetries - attempt` (the loop condition `attempt <
maxRetries` is exactly `remaining ≠ 0`).  On a terminal failure the
classified error is rethrown at once; on a retryable failure the loop
backs off and retries with the failure recorded as `lastError`; once
the budget is exhausted it raises `NetworkError` naming the attempt
count and wrapping `lastError`.  The second component counts attempts
issued. -/
def requestAux {α : Type} (env : RequestEnv α) (maxRetries : Nat) :
    (remaining attempt : Nat) → Option JsError →
      Except JsError α × Nat
  | 0, attempt, lastError =>
    (.error (.network s!"Request failed after {maxRetries} attempts"
        lastError), attempt)
  | remaining + 1, attempt, _lastError =>
    match env.attempt attempt with
    | .ok v => (.ok v, attempt + 1)
    | .httpError status body =>
        if isTerminalFailure (parseApiError status body) then
          (.error (parseApiError status body), attempt + 1)
        else
          requestAux env maxRetries remaining (attempt + 1)
            (some (parseApiError status body))
    | .thrown msg =>
        requestAux env maxRetries remaining (attempt + 1)
          (some (.plain msg))

/-- `request(method, path, body)` from `client.ts`, abstracted over the
network environment. -/
def request {α : Type} (env : RequestEnv α) (maxRetries : Nat) :
    Except JsError α × Nat :=
  requestAux env maxRetries maxRetries 0 none

/-- `min(initialDelayMs * backoffMultiplier ^ attempt, maxDelayMs)`: the
backoff delay before retrying after the given attempt. -/
def backoffDelay (attempt : Nat) : Nat :=
  min (RETRY_CONFIG.initialDelayMs * RETRY_CONFIG.backoffMultiplier ^ attempt)
    RETRY_CONFIG.maxDelayMs

/-! ## client.ts : upload (the orchestrator)

`upload` validates the declared media type, requests a handshake,
transfers the bytes to the presigned URL (mapping the transfer's
internal 0–100 progress onto 10–90 via
`10 + Math.round(progress * 0.8)`), polls for processing, and reports
progress 10 / 90 / 100 around those steps.  The XHR internal progress
values are `Math.round((event.loaded / event.total) * 100)`; both
roundings are modelled exactly on rationals as
`round(a/b) = (2*a + b) / (2*b)` (floor), i.e. round-half-up. -/

/-- `Math.round((loaded / total) * 100)`: the internal transfer
progress reported for one XHR progress event. -/
def internalProgress (loaded total : Nat) : Nat :=
  (200 * loaded + total) / (2 * total)

/-- `10 + Math.round(progress * 0.8)`: the orchestrator-level progress
reported for an internal transfer progress value. -/
def mappedProgress (internal : Nat) : Nat :=
  10 + (8 * internal + 5) / 10

/-- Orchestrator-level progress for one XHR progress event
`(loaded, total)`. -/
def progressReport (event : Nat × Nat) : Nat :=
  mappedProgress (internalProgress event.1 event.2)

/-- The network operations an `upload` call can issue, in order. -/
inductive UploadOp where
  | handshakeRequest
  | transfer
  | poll
deriving Repr, DecidableEq

/-- Environment for one `upload` invocation: the client configuration,
the payload's name/type/size, and the outside world's response to each
step (handshake result, XHR progress events `(loaded, total)` with
computable length, abort behaviour, terminal XHR event, and the poll
environment). -/
structure UploadEnv where
  baseUrl : String
  apiKey : String
  fileName : String
  fileType : String
  fileSize : Nat
  handshakeResult : Except JsError UploadHandshake
  transferEvents : List (Nat × Nat)
  signalAbortsTransfer : Bool
  transferOutcome : XhrOutcome
  pollEnv : PollEnv

/-- What one `upload` invocation produced: its result, the sequence of
values passed to `onProgress` in order, and the network operations it
issued. -/
structure UploadRun where
  result : Except JsError FileInfo
  progress : List Nat
  ops : List UploadOp
deriving Repr

/-- `upload(file, options)` from `client.ts`: validate the declared
media type against `ALLOWED_MIME_TYPES` (throwing
`InvalidFileTypeError` before any network operation), request the
handshake, report 10, transfer to the presigned URL while mapping
internal progress to 10–90, report 90, poll for processing (defaults
`maxWaitMs = 60000`, `pollIntervalMs = 1000`), report 100 and return
the record. -/
def upload (env : UploadEnv) : UploadRun :=
  if ALLOWED_MIME_TYPES.contains env.fileType then
    match env.handshakeResult with
    | .error e =>
        { result := .error e, progress := [], ops := [.handshakeRequest] }
    | .ok hs =>
        let tr := uploadToPresignedUrl env.baseUrl env.apiKey
          hs.presignedUrl env.signalAbortsTransfer env.transferOutcome
        let transferProgress := env.transferEvents.map progressReport
        match tr.result with
        | .error e =>
            { result := .error e
              progress := 10 :: transferProgress
              ops := [.handshakeRequest, .transfer] }
        | .ok _ =>
            match waitForProcessing env.pollEnv 60000 1000 with
            | .error e =>
                { result := .error e
                  progress := 10 :: transferProgress ++ [90]
                  ops := [.handshakeRequest, .transfer, .poll] }
            | .ok (fileInfo, _) =>
                { result := .ok fileInfo
                  progress := 10 :: transferProgress ++ [90, 100]
                  ops := [.handshakeRequest, .transfer, .poll] }
  else
    { result := .error (.invalidFileType (some env.fileType)
        (some ALLOWED_MIME_TYPES))
      progress := []
      ops := [] }

/-! ## Concrete instances

Sample environments used to instantiate the theorems below on concrete
inputs. -/

/-- A sample file record in the given processing state. -/
def fileRecord (s : ProcessingStatus) : FileInfo :=
  { id := "file_1", url := "https://cdn.example/file_1",
    originalName := "photo.png", fileType := "image/png",
    sizeBytes := 2048, context := "newsletter",
    processingStatus := s, createdAt := "2024-01-01T00:00:00Z" }

/-- Poll environment whose file never leaves the `processing` state and
whose abort signal never fires. -/
def pollEnvProcessing : PollEnv :=
  { fetch := fun _ => fileRecord .processing
    fetchDuration := fun _ => 0
    abortedAt := none }

/-- Poll environment whose file never leaves `processing` and whose
abort signal fires exactly at the 3000 ms deadline (i.e. during the
final sleep). -/
def pollEnvAbortAtDeadline : PollEnv :=
  { fetch := fun _ => fileRecord .processing
    fetchDuration := fun _ => 0
    abortedAt := some 3000 }

/-- Poll environment whose very first fetch observes `completed`. -/
def pollEnvDone : PollEnv :=
  { fetch := fun _ => fileRecord .completed
    fetchDuration := fun _ => 0
    abortedAt := none }

/-- A sample transfer slot. -/
def sampleHandshake : UploadHandshake :=
  { fileId := "file_1", presignedUrl := "/api/v1/upload/file_1"
    expiresAt := "2024-01-01T01:00:00Z"
    uploadMetadata :=
      { maxSizeBytes := MAX_FILE_SIZE_BYTES
        allowedTypes := ALLOWED_MIME_TYPES } }

/-- A fully successful upload environment: allowed type, handshake
granted, three progress events, 2xx transfer, first poll completed. -/
def uploadEnvOk : UploadEnv :=
  { baseUrl := "https://storage-brain-api.example"
    apiKey := "sk_test_1"
    fileName := "photo.png"
    fileType := "image/png"
    fileSize := 2048
    handshakeResult := .ok sampleHandshake
    transferEvents := [(0, 1), (1, 2), (1, 1)]
    signalAbortsTransfer := false
    transferOutcome := .completed 200
    pollEnv := pollEnvDone }

/-- Like `uploadEnvOk`, but the only transfer progress event reports
zero bytes sent. -/
def uploadEnvZeroEvent : UploadEnv :=
  { uploadEnvOk with transferEvents := [(0, 1)] }

/-- Like `uploadEnvOk`, but the declared media type is not allowed. -/
def uploadEnvBadType : UploadEnv :=
  { uploadEnvOk with fileType := "text/plain" }

/-- Request environment whose every attempt yields a bare HTTP 400
response. -/
def reqEnv400 : RequestEnv Nat :=
  { attempt := fun _ => .httpError 400 {} }

/-- Request environment whose every attempt throws a transport error. -/
def reqEnvThrown : RequestEnv Nat :=
  { attempt := fun _ => .thrown "fetch failed" }

/-- Request environment whose every attempt yields an HTTP 500 response
carrying an `UNAUTHORIZED` body. -/
def reqEnv500Unauthorized : RequestEnv Nat :=
  { attempt := fun _ =>
      .httpError 500 { error := some { code := some "UNAUTHORIZED" } } }

/-! ## Helper lemmas -/

theorem isAborted_none {env : PollEnv} (h : env.abortedAt = none)
    (t : Nat) : env.isAborted t = false := by
  simp [PollEnv.isAborted, h]

/-- The fuel counter of `pollLoop` is a pure modelling device: as long
as the poll interval is positive and the fuel exceeds the remaining
wait `maxWaitMs - elapsed`, the result does not depend on it. -/
theorem pollLoop_fuel_congr (env : PollEnv) (maxWaitMs pollIntervalMs : Nat)
    (hp : 0 < pollIntervalMs) :
    ∀ fuel fuel' elapsed fetchIdx, maxWaitMs - elapsed < fuel →
      maxWaitMs - elapsed < fuel' →
      pollLoop env maxWaitMs pollIntervalMs fuel elapsed fetchIdx =
        pollLoop env maxWaitMs pollIntervalMs fuel' elapsed fetchIdx := by
  intro fuel
  induction fuel with
  | zero => intro fuel' elapsed k h h'; exact absurd h (Nat.not_lt_zero _)
  | succ fuel ih =>
    intro fuel' elapsed k h h'
    cases fuel' with
    | zero => exact absurd h' (Nat.not_lt_zero _)
    | succ fuel' =>
      simp only [pollLoop]
      by_cases hd : elapsed < maxWaitMs
      · simp only [hd, if_true]
        by_cases ha : env.isAborted elapsed
        · simp [ha]
        · simp only [ha, Bool.false_eq_true, if_false]
          by_cases ht : isTerminalStatus (env.fetch k).processingStatus
          · simp [ht]
          · simp only [ht, Bool.false_eq_true, if_false]
            rw [ih fuel' (elapsed + env.fetchDuration k + pollIntervalMs)
              (k + 1) (by omega) (by omega)]
      · simp [hd]

/-- When no fetched record is ever terminal and the abort signal does
not fire before the deadline, the loop runs to the deadline: the trace
is a sequence of pre-deadline fetches followed by exactly one fetch at
or after the deadline, whose record is returned, and the number of
pre-deadline fetches is bounded by the wait budget over the poll
interval. -/
theorem pollLoop_never_terminal (env : PollEnv)
    (maxWaitMs pollIntervalMs : Nat) (hp : 0 < pollIntervalMs)
    (hnt : ∀ n, isTerminalStatus (env.fetch n).processingStatus = false)
    (hab : ∀ t, t < maxWaitMs → env.isAborted t = false) :
    ∀ fuel elapsed fetchIdx, maxWaitMs - elapsed < fuel →
      ∃ ts tFinal,
        pollLoop env maxWaitMs pollIntervalMs fuel elapsed fetchIdx =
          .ok (env.fetch (fetchIdx + ts.length), ts ++ [tFinal]) ∧
        maxWaitMs ≤ tFinal ∧ (∀ t ∈ ts, t < maxWaitMs) ∧
        ts.length * pollIntervalMs <
          maxWaitMs - elapsed + pollIntervalMs := by
  intro fuel
  induction fuel with
  | zero => intro elapsed k h; exact absurd h (Nat.not_lt_zero _)
  | succ fuel ih =>
    intro elapsed k h
    by_cases hd : elapsed < maxWaitMs
    · obtain ⟨ts, tF, heq, htF, hts, hcount⟩ :=
        ih (elapsed + env.fetchDuration k + pollIntervalMs) (k + 1)
          (by omega)
      refine ⟨elapsed :: ts, tF, ?_, htF, ?_, ?_⟩
      · simp only [pollLoop, hd, if_true, hab elapsed hd,
          Bool.false_eq_true, if_false, hnt k, heq, List.cons_append,
          List.length_cons]
        have hidx : k + 1 + ts.length = k + (ts.length + 1) := by omega
        rw [hidx]
      · intro t ht'
        rcases List.mem_cons.mp ht' with h1 | h2
        · exact h1 ▸ hd
        · exact hts t h2
      · simp only [List.length_cons]
        have hmul : (ts.length + 1) * pollIntervalMs =
            ts.length * pollIntervalMs + pollIntervalMs :=
          Nat.succ_mul _ _
        by_cases hc : maxWaitMs ≤ elapsed + env.fetchDuration k +
            pollIntervalMs
        · have h0 : maxWaitMs -
              (elapsed + env.fetchDuration k + pollIntervalMs) = 0 := by
            omega
          rw [h0, Nat.zero_add] at hcount
          have hL : ts.length = 0 := by
            rcases Nat.eq_zero_or_pos ts.length with hz | hpos
            · exact hz
            · exfalso
              have hge : pollIntervalMs ≤ ts.length * pollIntervalMs :=
                Nat.le_mul_of_pos_left _ hpos
              exact absurd (Nat.lt_of_le_of_lt hge hcount)
                (Nat.lt_irrefl _)
          rw [hL, Nat.zero_add, Nat.one_mul]
          omega
        · rw [hmul]
          have hsub : maxWaitMs -
                (elapsed + env.fetchDuration k + pollIntervalMs) +
                pollIntervalMs ≤ maxWaitMs - elapsed := by
            omega
          generalize ts.length * pollIntervalMs = X at hcount ⊢
          omega
    · refine ⟨[], elapsed, ?_, by omega, by simp,
        by simp only [List.length_nil, Nat.zero_mul]; omega⟩
      simp [pollLoop, hd]

/-- **C2.** For every file whose processing state never becomes
terminal within the deadline (and whose abort signal never fires),
`waitForProcessing` performs a sequence of pre-deadline fetches, then
exactly one final fetch at or after `maxWaitMs`, and returns that final
fetch's record without raising an error; in particular with
`maxWaitMs = 3000` and `pollIntervalMs = 1000` at most 4 fetches are
performed. -/
theorem waitForProcessing_deadline_returns_record (env : PollEnv)
    (maxWaitMs pollIntervalMs : Nat) (hp : 0 < pollIntervalMs)
    (hnt : ∀ n, isTerminalStatus (env.fetch n).processingStatus = false)
    (hab : env.abortedAt = none) :
    ∃ ts tFinal,
      waitForProcessing env maxWaitMs pollIntervalMs =
        .ok (env.fetch ts.length, ts ++ [tFinal]) ∧
      maxWaitMs ≤ tFinal ∧ (∀ t ∈ ts, t < maxWaitMs) ∧
      (maxWaitMs = 3000 → pollIntervalMs = 1000 →
        (ts ++ [tFinal]).length ≤ 4) := by
  obtain ⟨ts, tF, heq, h1, h2, h3⟩ :=
    pollLoop_never_terminal env maxWaitMs pollIntervalMs hp hnt
      (fun t _ => isAborted_none hab t) (maxWaitMs + 1) 0 0 (by omega)
  refine ⟨ts, tF, ?_, h1, h2, ?_⟩
  · simpa [waitForProcessing] using heq
  · intro h3000 h1000
    subst h3000 h1000
    simp only [List.length_append, List.length_singleton]
    omega

/-- **C2 witness.** A file that never leaves `processing`, polled with
`maxWaitMs = 3000`, `pollIntervalMs = 1000`. -/
theorem waitForProcessing_deadline_returns_record_witness :
    ∃ ts tFinal,
      waitForProcessing pollEnvProcessing 3000 1000 =
        .ok (pollEnvProcessing.fetch ts.length, ts ++ [tFinal]) ∧
      3000 ≤ tFinal ∧ (∀ t ∈ ts, t < 3000) ∧
      ((3 : Nat) = 3 → (1 : Nat) = 1 → (ts ++ [tFinal]).length ≤ 4) :=
  match waitForProcessing_deadline_returns_record pollEnvProcessing
      3000 1000 (by omega) (fun _ => rfl) rfl with
  | ⟨ts, tF, h1, h2, h3, h4⟩ =>
    ⟨ts, tF, h1, h2, h3, fun _ _ => h4 rfl rfl⟩

/-- **C10.** The abort signal is only checked inside the loop body,
never before the post-deadline final fetch.  First conjunct: once the
elapsed time has reached `maxWaitMs` when the loop condition is
evaluated, `pollLoop` performs the final fetch and returns its record
for *every* environment — including one whose signal is already
aborted.  Second conjunct: for a never-terminal file whose signal is
aborted exactly at the deadline (i.e. during the last sleep), the whole
run still ends with one further fetch, performed while the signal is
aborted, and returns its record instead of a cancelled failure. -/
theorem waitForProcessing_no_abort_check_after_deadline (env : PollEnv)
    (maxWaitMs pollIntervalMs : Nat) (hp : 0 < pollIntervalMs)
    (hnt : ∀ n, isTerminalStatus (env.fetch n).processingStatus = false)
    (hab : env.abortedAt = some maxWaitMs) :
    (∀ (env' : PollEnv) (fuel elapsed fetchIdx : Nat),
        maxWaitMs ≤ elapsed →
        pollLoop env' maxWaitMs pollIntervalMs fuel elapsed fetchIdx =
          .ok (env'.fetch fetchIdx, [elapsed])) ∧
    ∃ ts tFinal,
      waitForProcessing env maxWaitMs pollIntervalMs =
        .ok (env.fetch ts.length, ts ++ [tFinal]) ∧
      maxWaitMs ≤ tFinal ∧ env.isAborted tFinal = true := by
  constructor
  · intro env' fuel elapsed fetchIdx hdead
    cases fuel with
    | zero => rfl
    | succ fuel => simp [pollLoop, Nat.not_lt.mpr hdead]
  · have hab' : ∀ t, t < maxWaitMs → env.isAborted t = false := by
      intro t ht
      simp only [PollEnv.isAborted, hab]
      simp only [decide_eq_false_iff_not]
      omega
    obtain ⟨ts, tF, heq, h1, h2, _⟩ :=
      pollLoop_never_terminal env maxWaitMs pollIntervalMs hp hnt hab'
        (maxWaitMs + 1) 0 0 (by omega)
    refine ⟨ts, tF, ?_, h1, ?_⟩
    · simpa [waitForProcessing] using heq
    · simp only [PollEnv.isAborted, hab]
      simpa using h1

/-- **C10 witness.** Never-terminal file, `maxWaitMs = 3000`,
`pollIntervalMs = 1000`, signal aborted exactly at the deadline. -/
theorem waitForProcessing_no_abort_check_after_deadline_witness :
    (∀ (env' : PollEnv) (fuel elapsed fetchIdx : Nat),
        3000 ≤ elapsed →
        pollLoop env' 3000 1000 fuel elapsed fetchIdx =
          .ok (env'.fetch fetchIdx, [elapsed])) ∧
    ∃ ts tFinal,
      waitForProcessing pollEnvAbortAtDeadline 3000 1000 =
        .ok (pollEnvAbortAtDeadline.fetch ts.length, ts ++ [tFinal]) ∧
      3000 ≤ tFinal ∧ pollEnvAbortAtDeadline.isAborted tFinal = true :=
  waitForProcessing_no_abort_check_after_deadline pollEnvAbortAtDeadline
    3000 1000 (by omega) (fun _ => rfl) rfl

/-- Shared helper: when the first attempt fails with a classified error
whose status code is truthy and below 500, the retry loop rethrows it
immediately after exactly one attempt. -/
theorem request_terminal_first {α : Type} (env : RequestEnv α)
    (maxRetries status s : Nat) (body : ApiErrorResponse)
    (hmax : 0 < maxRetries)
    (h0 : env.attempt 0 = .httpError status body)
    (hsc : (parseApiError status body).statusCode = some s)
    (hs0 : s ≠ 0) (hs5 : s < 500) :
    request env maxRetries = (.error (parseApiError status body), 1) := by
  have hterm : isTerminalFailure (parseApiError status body) = true := by
    simp only [isTerminalFailure, hsc]
    simp [hs0, hs5]
  obtain ⟨r, rfl⟩ : ∃ r, maxRetries = r + 1 := ⟨maxRetries - 1, by omega⟩
  simp only [request, requestAux, h0, hterm, if_true]

/-- **C4.** A failed attempt whose classified error carries an HTTP
status code below 500 is terminal: the error is raised immediately and
exactly one attempt is made. -/
theorem request_sub500_no_retry {α : Type} (env : RequestEnv α)
    (maxRetries status s : Nat) (body : ApiErrorResponse)
    (hmax : 0 < maxRetries)
    (h0 : env.attempt 0 = .httpError status body)
    (hsc : (parseApiError status body).statusCode = some s)
    (hs0 : 0 < s) (hs5 : s < 500) :
    request env maxRetries = (.error (parseApiError status body), 1) :=
  request_terminal_first env maxRetries status s body hmax h0 hsc
    (by omega) hs5

/-- **C4 witness.** A bare HTTP 400 response: one attempt, no retry. -/
theorem request_sub500_no_retry_witness :
    request reqEnv400 3 = (.error (parseApiError 400 {}), 1) :=
  request_sub500_no_retry reqEnv400 3 400 400 {} (by omega) rfl rfl
    (by omega) (by omega)

/-- Shared helper: with only retryable failures on every attempt in
budget, the loop consumes the whole budget and raises the final
`NetworkError` wrapping the last failure. -/
theorem requestAux_all_retryable {α : Type} (env : RequestEnv α)
    (maxRetries : Nat) :
    ∀ (remaining attempt : Nat) (lastError : Option JsError),
      attempt + remaining = maxRetries →
      (∀ i, attempt ≤ i → i < maxRetries →
        isRetryableFailure (env.attempt i) = true) →
      requestAux env maxRetries remaining attempt lastError =
        (.error (.network s!"Request failed after {maxRetries} attempts"
          (if remaining = 0 then lastError
           else failureOf (env.attempt (maxRetries - 1)))),
         maxRetries) := by
  intro remaining
  induction remaining with
  | zero =>
    intro attempt lastError hsum hr
    have hattempt : attempt = maxRetries := by omega
    simp [requestAux, hattempt]
  | succ remaining ih =>
    intro attempt lastError hsum hr
    have hretry := hr attempt (Nat.le_refl _) (by omega)
    simp only [requestAux]
    cases hA : env.attempt attempt with
    | ok v =>
      rw [hA] at hretry
      simp [isRetryableFailure] at hretry
    | httpError status body =>
      rw [hA] at hretry
      simp only [isRetryableFailure, Bool.not_eq_true'] at hretry
      simp only [hretry, Bool.false_eq_true, if_false]
      rw [ih (attempt + 1) (some (parseApiError status body)) (by omega)
        (fun i hi hi' => hr i (by omega) hi')]
      by_cases hrem : remaining = 0
      · subst hrem
        have hidx : maxRetries - 1 = attempt := by omega
        simp [hidx, hA, failureOf]
      · simp [hrem]
    | thrown msg =>
      dsimp only
      rw [ih (attempt + 1) (some (.plain msg)) (by omega)
        (fun i hi hi' => hr i (by omega) hi')]
      by_cases hrem : remaining = 0
      · subst hrem
        have hidx : maxRetries - 1 = attempt := by omega
        simp [hidx, hA, failureOf]
      · simp [hrem]

/-- **C7.** When every attempt in the budget fails with a retryable
failure, the call consumes all `maxRetries` attempts and raises a
Network-kind error whose message states the attempt count and which
wraps the last observed failure. -/
theorem request_exhausted_network_error {α : Type} (env : RequestEnv α)
    (maxRetries : Nat) (hmax : 0 < maxRetries)
    (hr : ∀ i, i < maxRetries →
      isRetryableFailure (env.attempt i) = true) :
    request env maxRetries =
      (.error (.network s!"Request failed after {maxRetries} attempts"
        (failureOf (env.attempt (maxRetries - 1)))), maxRetries) := by
  have h := requestAux_all_retryable env maxRetries maxRetries 0 none
    (by omega) (fun i _ hi' => hr i hi')
  rw [request, h, if_neg (by omega)]

/-- **C7 witness.** Three thrown network failures with `maxRetries = 3`:
the raised error is Network-kind, its message names the 3 attempts, and
it wraps the last failure. -/
theorem request_exhausted_network_error_witness :
    request reqEnvThrown 3 =
      (.error (.network "Request failed after 3 attempts"
        (some (.plain "fetch failed"))), 3) :=
  request_exhausted_network_error reqEnvThrown 3 (by omega)
    (fun _ _ => rfl)

/-- **C9.** For each of the seven recognized error codes, the
classified error's carried HTTP status is a fixed constant determined
by the kind alone (401/403/400/400/404/404/400), regardless of the
actual HTTP response status `st`; consequently such a failure is always
terminal for the retry loop — exactly one attempt — even when the
server responded with a 5xx status. -/
theorem parseApiError_status_fixed_terminal {α : Type} (st : Nat)
    (m : Option String) (d : Option ErrorDetails) :
    ((parseApiError st ⟨some ⟨some "UNAUTHORIZED", m, d⟩⟩).statusCode =
        some 401 ∧
     (parseApiError st ⟨some ⟨some "QUOTA_EXCEEDED", m, d⟩⟩).statusCode =
        some 403 ∧
     (parseApiError st ⟨some ⟨some "INVALID_FILE_TYPE", m, d⟩⟩).statusCode =
        some 400 ∧
     (parseApiError st ⟨some ⟨some "FILE_TOO_LARGE", m, d⟩⟩).statusCode =
        some 400 ∧
     (parseApiError st ⟨some ⟨some "FILE_NOT_FOUND", m, d⟩⟩).statusCode =
        some 404 ∧
     (parseApiError st ⟨some ⟨some "NOT_FOUND", m, d⟩⟩).statusCode =
        some 404 ∧
     (parseApiError st ⟨some ⟨some "VALIDATION_ERROR", m, d⟩⟩).statusCode =
        some 400) ∧
    ∀ (env : RequestEnv α) (maxRetries : Nat) (c : String),
      c ∈ (["UNAUTHORIZED", "QUOTA_EXCEEDED", "INVALID_FILE_TYPE",
            "FILE_TOO_LARGE", "FILE_NOT_FOUND", "NOT_FOUND",
            "VALIDATION_ERROR"] : List String) →
      0 < maxRetries →
      env.attempt 0 = .httpError st ⟨some ⟨some c, m, d⟩⟩ →
      request env maxRetries =
        (.error (parseApiError st ⟨some ⟨some c, m, d⟩⟩), 1) := by
  refine ⟨⟨rfl, rfl, rfl, rfl, rfl, rfl, rfl⟩, ?_⟩
  intro env maxRetries c hc hmax h0
  simp only [List.mem_cons, List.mem_singleton, List.not_mem_nil,
    or_false] at hc
  rcases hc with rfl | rfl | rfl | rfl | rfl | rfl | rfl
  · exact request_terminal_first env maxRetries st 401 _ hmax h0 rfl
      (by omega) (by omega)
  · exact request_terminal_first env maxRetries st 403 _ hmax h0 rfl
      (by omega) (by omega)
  · exact request_terminal_first env maxRetries st 400 _ hmax h0 rfl
      (by omega) (by omega)
  · exact request_terminal_first env maxRetries st 400 _ hmax h0 rfl
      (by omega) (by omega)
  · exact request_terminal_first env maxRetries st 404 _ hmax h0 rfl
      (by omega) (by omega)
  · exact request_terminal_first env maxRetries st 404 _ hmax h0 rfl
      (by omega) (by omega)
  · exact request_terminal_first env maxRetries st 400 _ hmax h0 rfl
      (by omega) (by omega)

/-- **C9 witness.** An `UNAUTHORIZED` body arriving with HTTP status
500: the classified status is still 401 and the loop stops after one
attempt. -/
theorem parseApiError_status_fixed_terminal_witness :
    (parseApiError 500
      ⟨some ⟨some "UNAUTHORIZED", none, none⟩⟩).statusCode = some 401 ∧
    request reqEnv500Unauthorized 3 =
      (.error (parseApiError 500
        ⟨some ⟨some "UNAUTHORIZED", none, none⟩⟩), 1) :=
  ⟨(parseApiError_status_fixed_terminal (α := Nat) 500 none none).1.1,
   (parseApiError_status_fixed_terminal 500 none none).2
     reqEnv500Unauthorized 3 "UNAUTHORIZED" (by simp) (by omega) rfl⟩

/-- **C1.** For every error body with a recognized `code`, classification
produces exactly the corresponding error class with the documented
detail fields populated from the body's `details`, for any HTTP status
`st`, message `m` and details `d`; for `FILE_NOT_FOUND` / `NOT_FOUND`
the carried file id defaults to the literal `"unknown"` when absent. -/
theorem parseApiError_recognized_codes (st : Nat) (m : Option String)
    (d : Option ErrorDetails) :
    parseApiError st ⟨some ⟨some "UNAUTHORIZED", m, d⟩⟩ =
      .authentication (m.getD "Authentication failed") ∧
    parseApiError st ⟨some ⟨some "QUOTA_EXCEEDED", m, d⟩⟩ =
      .quotaExceeded (m.getD "Storage quota exceeded")
        (d.bind ErrorDetails.quotaBytes) (d.bind ErrorDetails.usedBytes) ∧
    parseApiError st ⟨some ⟨some "INVALID_FILE_TYPE", m, d⟩⟩ =
      .invalidFileType (d.bind ErrorDetails.fileType)
        (d.bind ErrorDetails.allowedTypes) ∧
    parseApiError st ⟨some ⟨some "FILE_TOO_LARGE", m, d⟩⟩ =
      .fileTooLarge (d.bind ErrorDetails.fileSize)
        (d.bind ErrorDetails.maxSize) ∧
    parseApiError st ⟨some ⟨some "FILE_NOT_FOUND", m, d⟩⟩ =
      .fileNotFound ((d.bind ErrorDetails.fileId).getD "unknown") ∧
    parseApiError st ⟨some ⟨some "NOT_FOUND", m, d⟩⟩ =
      .fileNotFound ((d.bind ErrorDetails.fileId).getD "unknown") ∧
    parseApiError st ⟨some ⟨some "VALIDATION_ERROR", m, d⟩⟩ =
      .validation (m.getD "Validation failed")
        (d.bind ErrorDetails.errors) :=
  ⟨rfl, rfl, rfl, rfl, rfl, rfl, rfl⟩

/-- **C5 counterexample.** The cancelled failure and a generic non-2xx
upload failure are *not* distinguished by their kind: both are
`UploadError` with code `UPLOAD_ERROR`; only their messages differ.
Shown at a concrete cancelled transfer and a concrete status-500
transfer. -/
theorem transfer_cancelled_kind_counterexample :
    (uploadToPresignedUrl "https://api.example" "sk_test_1" "/up" true
        (.completed 200)).result =
      .error (.upload "Upload was cancelled" none) ∧
    (uploadToPresignedUrl "https://api.example" "sk_test_1" "/up" false
        (.completed 500)).result =
      .error (.upload "Upload failed with status 500" none) ∧
    JsError.kind (.upload "Upload was cancelled" none) =
      JsError.kind (.upload "Upload failed with status 500" none) ∧
    JsError.code (.upload "Upload was cancelled" none) =
      JsError.code (.upload "Upload failed with status 500" none) :=
  ⟨rfl, rfl, rfl, rfl⟩

/-- **C5 (amended).** If the cancellation signal fires before the
transfer reaches a terminal state, the in-flight transfer is aborted
and the operation completes with the cancelled failure
`UploadError('Upload was cancelled')`, whatever terminal event was
pending; this failure is distinct (as an error value, by its message)
from every generic non-2xx upload failure — though both share the
Upload kind (see the counterexample). -/
theorem transfer_cancelled_distinct_message
    (baseUrl apiKey presignedUrl : String) (outcome : XhrOutcome) :
    (uploadToPresignedUrl baseUrl apiKey presignedUrl true
        outcome).result =
      .error (.upload "Upload was cancelled" none) ∧
    ∀ status : Nat,
      (JsError.upload "Upload was cancelled" none) ≠
        .upload (uploadFailedMsg status) none := by
  constructor
  · rfl
  · intro status h
    injection h with h1 _
    have hlen := congrArg String.length h1
    rw [uploadFailedMsg, String.length_append] at hlen
    have h20 : ("Upload was cancelled" : String).length = 20 := by decide
    have h26 : ("Upload failed with status " : String).length = 26 := by
      decide
    omega

/-- **C5 witness.** Concrete cancelled transfer; its failure differs
from the status-500 upload failure. -/
theorem transfer_cancelled_distinct_message_witness :
    (uploadToPresignedUrl "https://api.example" "sk_test_1" "/up" true
        (.completed 200)).result =
      .error (.upload "Upload was cancelled" none) ∧
    (JsError.upload "Upload was cancelled" none) ≠
      .upload (uploadFailedMsg 500) none :=
  ⟨(transfer_cancelled_distinct_message "https://api.example"
      "sk_test_1" "/up" (.completed 200)).1,
   (transfer_cancelled_distinct_message "https://api.example"
      "sk_test_1" "/up" (.completed 200)).2 500⟩

/-- **C6.** A service-relative destination URL (starting with `/`) is
resolved against the configured base address and gets a bearer
authentication header; an absolute URL is used as-is and gets no
authentication header. -/
theorem transfer_url_resolution_auth
    (baseUrl apiKey presignedUrl : String) (signalAborts : Bool)
    (outcome : XhrOutcome) :
    (startsWithSlash presignedUrl = true →
      (uploadToPresignedUrl baseUrl apiKey presignedUrl signalAborts
          outcome).url = baseUrl ++ presignedUrl ∧
      (uploadToPresignedUrl baseUrl apiKey presignedUrl signalAborts
          outcome).authHeader = some ("Bearer " ++ apiKey)) ∧
    (startsWithSlash presignedUrl = false →
      (uploadToPresignedUrl baseUrl apiKey presignedUrl signalAborts
          outcome).url = presignedUrl ∧
      (uploadToPresignedUrl baseUrl apiKey presignedUrl signalAborts
          outcome).authHeader = none) := by
  refine ⟨fun h => ?_, fun h => ?_⟩ <;>
    simp [uploadToPresignedUrl, h]

/-- **C6 witness.** A service-relative and an absolute destination. -/
theorem transfer_url_resolution_auth_witness :
    ((uploadToPresignedUrl "https://api.example" "sk_test_1"
        "/api/v1/upload/file_1" false (.completed 200)).url =
          "https://api.example" ++ "/api/v1/upload/file_1" ∧
     (uploadToPresignedUrl "https://api.example" "sk_test_1"
        "/api/v1/upload/file_1" false (.completed 200)).authHeader =
          some ("Bearer " ++ "sk_test_1")) ∧
    ((uploadToPresignedUrl "https://api.example" "sk_test_1"
        "https://r2.example/file_1" false (.completed 200)).url =
          "https://r2.example/file_1" ∧
     (uploadToPresignedUrl "https://api.example" "sk_test_1"
        "https://r2.example/file_1" false (.completed 200)).authHeader =
          none) :=
  ⟨(transfer_url_resolution_auth "https://api.example" "sk_test_1"
      "/api/v1/upload/file_1" false (.completed 200)).1 (by decide),
   (transfer_url_resolution_auth "https://api.example" "sk_test_1"
      "https://r2.example/file_1" false (.completed 200)).2 (by decide)⟩

theorem internalProgress_le_100 (loaded total : Nat)
    (hl : loaded ≤ total) (ht : 0 < total) :
    internalProgress loaded total ≤ 100 := by
  rw [internalProgress]
  have h : 200 * loaded + total < 101 * (2 * total) := by omega
  have h2 := (Nat.div_lt_iff_lt_mul (by omega : 0 < 2 * total)).mpr h
  omega

theorem mappedProgress_le_90 (p : Nat) (hp : p ≤ 100) :
    mappedProgress p ≤ 90 := by
  rw [mappedProgress]
  omega

theorem progressReport_bounds (e : Nat × Nat) (hl : e.1 ≤ e.2)
    (ht : 0 < e.2) : 10 ≤ progressReport e ∧ progressReport e ≤ 90 :=
  ⟨by rw [progressReport, mappedProgress]; omega,
   mappedProgress_le_90 _ (internalProgress_le_100 _ _ hl ht)⟩

/-- **C3 counterexample.** A successful upload whose only transfer
progress event reports zero bytes sent produces the progress sequence
`[10, 10, 90, 100]` — two calls with value 10, so the sequence does not
contain exactly one call with value 10. -/
theorem upload_progress_two_tens_counterexample :
    (upload uploadEnvZeroEvent).result = .ok (fileRecord .completed) ∧
    (upload uploadEnvZeroEvent).progress = [10, 10, 90, 100] ∧
    (upload uploadEnvZeroEvent).progress.count 10 = 2 :=
  ⟨rfl, rfl, by decide⟩

/-- **C3 (amended).** For every successful upload with a progress
callback, the reported sequence is exactly: a first call at 10, then
one call `10 + round(internal * 0.8)` per transfer progress event —
each lying between 10 and 90 inclusive (possibly equal to 10 when the
transfer progress is 0, or to 90 when it is 100) — then one call at 90,
then a final call at 100. -/
theorem upload_progress_sequence (env : UploadEnv)
    (hs : UploadHandshake) (status : Nat)
    (hty : ALLOWED_MIME_TYPES.contains env.fileType = true)
    (hhs : env.handshakeResult = .ok hs)
    (hab : env.signalAbortsTransfer = false)
    (hout : env.transferOutcome = .completed status)
    (h2a : 200 ≤ status) (h2b : status < 300)
    (fileInfo : FileInfo) (ts : List Nat)
    (hpoll : waitForProcessing env.pollEnv 60000 1000 =
      .ok (fileInfo, ts))
    (hev : ∀ e ∈ env.transferEvents, e.1 ≤ e.2 ∧ 0 < e.2) :
    (upload env).result = .ok fileInfo ∧
    (upload env).progress =
      10 :: env.transferEvents.map progressReport ++ [90, 100] ∧
    ∀ p ∈ env.transferEvents.map progressReport, 10 ≤ p ∧ p ≤ 90 := by
  have hres : (uploadToPresignedUrl env.baseUrl env.apiKey
      hs.presignedUrl env.signalAbortsTransfer
      env.transferOutcome).result = .ok () := by
    rw [hab, hout]
    simp [uploadToPresignedUrl, h2a, h2b]
  have hrun : upload env =
      { result := .ok fileInfo
        progress :=
          10 :: env.transferEvents.map progressReport ++ [90, 100]
        ops := [.handshakeRequest, .transfer, .poll] } := by
    simp only [upload, hty, if_true, hhs, hres, hpoll]
  refine ⟨by rw [hrun], by rw [hrun], ?_⟩
  intro p hp
  obtain ⟨e, he, rfl⟩ := List.mem_map.mp hp
  obtain ⟨h1, h2⟩ := hev e he
  exact progressReport_bounds e h1 h2

/-- **C3 witness.** A successful upload with transfer events at 0%, 50%
and 100%: progress sequence `[10, 10, 50, 90, 90, 100]`. -/
theorem upload_progress_sequence_witness :
    (upload uploadEnvOk).result = .ok (fileRecord .completed) ∧
    (upload uploadEnvOk).progress =
      10 :: uploadEnvOk.transferEvents.map progressReport ++ [90, 100] ∧
    ∀ p ∈ uploadEnvOk.transferEvents.map progressReport,
      10 ≤ p ∧ p ≤ 90 :=
  upload_progress_sequence uploadEnvOk sampleHandshake 200 (by decide)
    rfl rfl rfl (by omega) (by omega) (fileRecord .completed) [0] rfl
    (by decide)

/-- **C8.** An upload whose declared media type is not in
`ALLOWED_MIME_TYPES` fails with `InvalidFileTypeError` before any
network operation: no handshake request, no byte transfer, no poll, and
no progress call. -/
theorem upload_invalid_type_no_network (env : UploadEnv)
    (hty : ALLOWED_MIME_TYPES.contains env.fileType = false) :
    upload env =
      { result := .error (.invalidFileType (some env.fileType)
          (some ALLOWED_MIME_TYPES))
        progress := []
        ops := [] } := by
  simp only [upload, hty, Bool.false_eq_true, if_false]

/-- **C8 witness.** Uploading a `text/plain` payload. -/
theorem upload_invalid_type_no_network_witness :
    upload uploadEnvBadType =
      { result := .error (.invalidFileType (some "text/plain")
          (some ALLOWED_MIME_TYPES))
        progress := []
        ops := [] } :=
  upload_invalid_type_no_network uploadEnvBadType (by decide)

end StorageBrainSdk
